import Mathlib

/-!
Shallow embedding of `src/program_10.py`, a pandas script computing
descriptive streamflow statistics (water-year and monthly aggregation of
daily discharge records), together with theorems settling the claims
about it.

Modelling conventions:
* A pandas `Series` of daily discharges is a `List (Option ℚ)` in
  chronological order; `none` stands for a NaN (missing) entry, `some q`
  for a finite float.  `dropna` is `Series.dropna`.
* Scalar floating-point results that can be NaN or infinite are values of
  the inductive type `FV`; `fdiv` is numpy true division, which yields
  NaN for `0/0` and a signed infinity for `x/0`, `x ≠ 0`, instead of
  raising an exception.
* Dates are `Date` records ordered through the numeric key
  `y*10000 + m*100 + d`, which on calendar dates agrees with
  chronological order; pandas inclusive label slices `df[a:b]` become
  filters `a ≤ date ∧ date ≤ b`.
* Quantities whose floating value involves a square root (the skewness
  `m3 / m2^(3/2)`, the standard deviation) are represented without the
  root: a skewness is kept as its sign together with its square
  (`SkewRep`), a coefficient of variation as the pair
  (sample variance, mean).  Both encodings determine the float value
  exactly and make every definition executable over ℚ.
-/

namespace Program10

/-- A calendar date (year, month, day). -/
structure Date where
  y : Nat
  m : Nat
  d : Nat
deriving DecidableEq, Repr

/-- Numeric key giving the chronological order of dates. -/
def Date.key (a : Date) : Nat := a.y * 10000 + a.m * 100 + a.d

instance : LE Date := ⟨fun a b => a.key ≤ b.key⟩

instance : LT Date := ⟨fun a b => a.key < b.key⟩

instance (a b : Date) : Decidable (a ≤ b) := inferInstanceAs (Decidable (a.key ≤ b.key))

instance (a b : Date) : Decidable (a < b) := inferInstanceAs (Decidable (a.key < b.key))

/-- A floating-point scalar as this program can produce it: a finite
rational, NaN, or a signed infinity. -/
inductive FV where
  | fin : ℚ → FV
  | nan : FV
  | inf : FV
  | ninf : FV
deriving DecidableEq, Repr

/-- numpy true division of finite floats: `0/0` is NaN, `x/0` for
`x ≠ 0` is a signed infinity, and no exception is ever raised. -/
def fdiv (a b : ℚ) : FV :=
  if b = 0 then (if a = 0 then FV.nan else if 0 < a then FV.inf else FV.ninf)
  else FV.fin (a / b)

/-- `Series.dropna`: the non-null values, order preserved. -/
def dropna (xs : List (Option ℚ)) : List ℚ := xs.filterMap id

/-- `Series.mean` over an already-`dropna`ed series: NaN (`none`) on an
empty series, otherwise the arithmetic mean. -/
def meanOpt (q : List ℚ) : Option ℚ :=
  if q.length = 0 then none else some (q.sum / q.length)

/-- `Series.median` over an already-`dropna`ed series: NaN (`none`) on an
empty series; otherwise the middle order statistic of the ascending sort,
averaging the two middle ones for an even length. -/
def medianOpt (q : List ℚ) : Option ℚ :=
  let s := q.insertionSort (fun a b => a ≤ b)
  let n := q.length
  if n = 0 then none
  else if n % 2 = 1 then some (s.getD (n / 2) 0)
  else some ((s.getD (n / 2 - 1) 0 + s.getD (n / 2) 0) / 2)

/-- `CalcTqmean` (program_10.py lines 53–66): drop the null values, then
divide the number of values strictly above the mean by the number of
values.  The count/len division is numpy's, so an empty series gives
`0/0 =` NaN.  Comparisons against a NaN mean are all false. -/
def CalcTqmean (Qvalues : List (Option ℚ)) : FV :=
  let q := dropna Qvalues
  let c : Nat :=
    match meanOpt q with
    | none => 0
    | some m => (q.filter (fun v => decide (m < v))).length
  fdiv c q.length

/-- The loop of `CalcRBindex` (program_10.py lines 79–81): the sum of
absolute differences of consecutive values.  The python loop indexes the
datetime-indexed series with integers, which pandas resolves
positionally, so the null-removed sequence is traversed contiguously. -/
def pathlen : List ℚ → ℚ
  | [] => 0
  | [_] => 0
  | a :: b :: t => |b - a| + pathlen (b :: t)

/-- `CalcRBindex` (program_10.py lines 68–84): drop the null values, then
divide the path length by the sum of the values (numpy division:
`0/0 =` NaN). -/
def CalcRBindex (Qvalues : List (Option ℚ)) : FV :=
  let q := dropna Qvalues
  fdiv (pathlen q) q.sum

/-- `Series.rolling(window=7).mean()` restricted to its non-NaN entries:
pandas puts NaN on the first six positions (min_periods defaults to the
window size) and the mean of the trailing 7 entries on every later
position; the subsequent `.min()` skips the NaNs, so only the full
7-windows matter. -/
def rolling7means (q : List ℚ) : List ℚ :=
  (List.range (q.length + 1 - 7)).map (fun i => ((q.drop i).take 7).sum / 7)

/-- `Calc7Q` (program_10.py lines 86–99): drop the null values, then take
the minimum 7-entry rolling mean; `none` (NaN) when no full window
exists. -/
def Calc7Q (Qvalues : List (Option ℚ)) : Option ℚ :=
  (rolling7means (dropna Qvalues)).min?

/-- `CalcExceed3TimesMedian` (program_10.py lines 101–112): drop the null
values, then count the values strictly greater than three times the
median.  When the median is NaN (empty series) every comparison is
false, so the count is the integer 0, not NaN. -/
def CalcExceed3TimesMedian (Qvalues : List (Option ℚ)) : Nat :=
  let q := dropna Qvalues
  match medianOpt q with
  | none => 0
  | some med => (q.filter (fun v => decide (3 * med < v))).length

/-- A floating value of the form `sgn · √sq` (`sgn ∈ {-1,0,1}`, `sq ≥ 0`):
a square-root-free exact representation of skewness values, which are
`m3 / m2^(3/2)`.  The pair determines the float value and vice versa. -/
structure SkewRep where
  sgn : Int
  sq : ℚ
deriving DecidableEq, Repr

/-- The sign of a rational. -/
def qsign (a : ℚ) : Int := if a < 0 then -1 else if a = 0 then 0 else 1

/-- `scipy.stats.skew` with its defaults (`bias=True`,
`nan_policy='propagate'`), as called on program_10.py line 134: the
biased Fisher–Pearson coefficient `g1 = m3 / m2^(3/2)` over ALL entries
of the window, so any NaN entry (and the empty window) makes the result
NaN (`none`); scipy maps the zero-variance case to 0.  The value is kept
as a `SkewRep`: sign of `m3` together with `m3² / m2³`. -/
def scipySkew (xs : List (Option ℚ)) : Option SkewRep :=
  if xs.any (fun x => x.isNone) || xs.isEmpty then none
  else
    let q := dropna xs
    let n : ℚ := q.length
    let μ := q.sum / n
    let m2 := (q.map (fun v => (v - μ) ^ 2)).sum / n
    let m3 := (q.map (fun v => (v - μ) ^ 3)).sum / n
    if m2 = 0 then some ⟨0, 0⟩
    else some ⟨qsign m3, m3 ^ 2 / m2 ^ 3⟩

/-- The bias-corrected (adjusted) Fisher–Pearson sample skewness
`G1 = √(n(n-1))/(n-2) · g1` named by the claim, over a list of plain
values, in the same square-root-free representation.  It is defined
(`some`) only for `n ≥ 3` with a nonzero second moment. -/
def adjustedSkew (q : List ℚ) : Option SkewRep :=
  if q.length < 3 then none
  else
    let n : ℚ := q.length
    let μ := q.sum / n
    let m2 := (q.map (fun v => (v - μ) ^ 2)).sum / n
    let m3 := (q.map (fun v => (v - μ) ^ 3)).sum / n
    if m2 = 0 then none
    else some ⟨qsign m3, n * (n - 1) / (n - 2) ^ 2 * (m3 ^ 2 / m2 ^ 3)⟩

/-- `Series.std` (`ddof = 1`, pandas skipna) over an already-`dropna`ed
series, represented without the square root as the sample variance;
`none` (NaN) when fewer than two values remain. -/
def sampleVarOpt (q : List ℚ) : Option ℚ :=
  if q.length < 2 then none
  else
    let n : ℚ := q.length
    let μ := q.sum / n
    some ((q.map (fun v => (v - μ) ^ 2)).sum / (n - 1))

/-- One observation of the parsed time series: the DataFrame row
(index date, site number, Discharge).  The agency and quality columns
play no part in any claim. -/
structure Obs where
  date : Date
  site_no : Nat
  discharge : Option ℚ
deriving DecidableEq, Repr

/-- The inclusive pandas label slice
`DataDF['Discharge'][str(WY-1)+"-10-01" : str(WY)+"-09-30"]` of
program_10.py lines 130–138: the discharges of the observations dated
inside the water year `WY` window. -/
def window (df : List Obs) (WY : Nat) : List (Option ℚ) :=
  (df.filter (fun o =>
    decide (Date.mk (WY - 1) 10 1 ≤ o.date) && decide (o.date ≤ Date.mk WY 9 30))).map
    (fun o => o.discharge)

/-- One row of the `WYDataDF` table built by `GetAnnualStatistics`.
`coeffVar` is `std/mean*100` kept square-root-free as the pair
(sample variance, mean); it is `none` (NaN) when either factor is NaN. -/
structure AnnualRow where
  site_no : Nat
  meanFlow : Option ℚ
  peakFlow : Option ℚ
  median : Option ℚ
  coeffVar : Option (ℚ × ℚ)
  skew : Option SkewRep
  tqmean : FV
  rbIndex : FV
  sevenQ : Option ℚ
  exceed3xMedian : Nat
deriving DecidableEq, Repr

/-- The statistics of one water year `WY` (the body of the loop on
program_10.py lines 129–138), all computed over the inclusive window
`[WY-1-10-01, WY-09-30]`.  pandas mean/max/median/std skip the NaN
entries; `stats.skew` does not. -/
def annualRowFor (df : List Obs) (site : Nat) (WY : Nat) : AnnualRow :=
  let w := window df WY
  let q := dropna w
  { site_no := site
    meanFlow := meanOpt q
    peakFlow := q.max?
    median := medianOpt q
    coeffVar :=
      match sampleVarOpt q, meanOpt q with
      | some v, some μ => some (v, μ)
      | _, _ => none
    skew := scipySkew w
    tqmean := CalcTqmean w
    rbIndex := CalcRBindex w
    sevenQ := Calc7Q w
    exceed3xMedian := CalcExceed3TimesMedian w }

/-- The water year a date belongs to: October–December count toward the
following calendar year's water year. -/
def wyear (t : Date) : Nat := if 10 ≤ t.m then t.y + 1 else t.y

/-- The smaller of two dates. -/
def dateMin (a b : Date) : Date := if a ≤ b then a else b

/-- The larger of two dates. -/
def dateMax (a b : Date) : Date := if a ≤ b then b else a

/-- The index of `DataDF.resample('AS-OCT')` (program_10.py line 139):
one label per water year from the first to the last observation, each
label the October 1 opening that water year. -/
def resampleASOct (df : List Obs) : List Date :=
  match df.map (fun o => o.date) with
  | [] => []
  | d :: ds =>
    let lo := ds.foldl dateMin d
    let hi := ds.foldl dateMax d
    (List.range (wyear hi + 1 - wyear lo)).map (fun k => ⟨wyear lo - 1 + k, 10, 1⟩)

/-- `GetAnnualStatistics` (program_10.py lines 114–140): one row per
water year 1970–2019 (windows `[WY-1-10-01, WY-09-30]` inclusive), the
site number copied from the first observation, and finally the index
reassigned to the 'AS-OCT' resample index of the input.  pandas raises a
length-mismatch `ValueError` when that index does not also have 50
entries, and a lookup error on an empty frame; both abnormal exits are
modelled as `none`. -/
def GetAnnualStatistics (df : List Obs) : Option (List (Date × AnnualRow)) :=
  match df.head? with
  | none => none
  | some o0 =>
    if (resampleASOct df).length = 50 then
      some ((resampleASOct df).zip
        ((List.range 50).map (fun k => annualRowFor df o0.site_no (1970 + k))))
    else none

/-- `ClipData` (program_10.py lines 43–51): the inclusive date-range
slice `DataDF[startDate:endDate]` together with the recomputed count of
missing (NaN) discharges. -/
def ClipData (df : List Obs) (startDate endDate : Date) : List Obs × Nat :=
  let c := df.filter (fun o => decide (startDate ≤ o.date) && decide (o.date ≤ endDate))
  (c, c.countP (fun o => o.discharge.isNone))

/-- A raw Discharge field as `read_csv` sees it: a number, the USGS
"Eqp" sentinel (declared through `na_values=['Eqp']`), or a field
already missing in the file. -/
inductive RawVal where
  | val : ℚ → RawVal
  | eqp : RawVal
  | blank : RawVal
deriving DecidableEq, Repr

/-- One raw record of the input file after column parsing. -/
structure RawObs where
  date : Date
  site_no : Nat
  v : RawVal
deriving DecidableEq, Repr

/-- `read_csv`'s missing-value handling: both the "Eqp" sentinel and an
absent field parse to NaN (`none`); numbers parse to themselves. -/
def RawVal.toDischarge : RawVal → Option ℚ
  | .val q => some q
  | .eqp => none
  | .blank => none

/-- The parsed DataFrame row a raw record becomes. -/
def parseObs (r : RawObs) : Obs := ⟨r.date, r.site_no, r.v.toDischarge⟩

/-- The float comparison `Discharge < 0` of program_10.py line 37:
false on a NaN discharge. -/
def negDischarge : Option ℚ → Bool
  | some q => decide (q < 0)
  | none => false

/-- `ReadData` (program_10.py lines 16–41) after `read_csv`: keep the
rows whose discharge is NOT strictly negative (so NaN rows stay), and
count the missing discharges among the kept rows. -/
def ReadData (raw : List RawObs) : List Obs × Nat :=
  let df := (raw.map parseObs).filter (fun o => !negDischarge o.discharge)
  (df, df.countP (fun o => o.discharge.isNone))

/-- One column's entry of `WYDataDF.mean(axis=0)`: the pandas column
mean, which skips NaN entries and is NaN (`none`) when no value
remains. -/
def colMean (col : List (Option ℚ)) : Option ℚ :=
  let vs := col.filterMap id
  if vs.length = 0 then none else some (vs.sum / vs.length)

/-- `GetAnnualAverages` (program_10.py lines 162–167):
`WYDataDF.mean(axis=0)`, the column-wise mean of a table with `ncols`
numeric columns, each table row a list of `ncols` optional entries. -/
def GetAnnualAverages (ncols : Nat) (tbl : List (List (Option ℚ))) : List (Option ℚ) :=
  (List.range ncols).map (fun j => colMean (tbl.map (fun r => r.getD j none)))

/-- The amended description of the Skew column, stated independently of
`scipySkew`: NaN (`none`) when the window is empty or contains any null
entry; otherwise the biased Fisher–Pearson coefficient
`g1 = m3 / m2^(3/2)` of the window's values (0 when the variance is
zero), with the moments written as indexed sums. -/
def biasedSkewAlt (xs : List (Option ℚ)) : Option SkewRep :=
  if xs.length = 0 ∨ ∃ x ∈ xs, x = none then none
  else
    let n : ℚ := xs.length
    let v : Nat → ℚ := fun i => (xs.getD i (some 0)).getD 0
    let μ := (∑ i ∈ Finset.range xs.length, v i) / n
    let m2 := (∑ i ∈ Finset.range xs.length, (v i - μ) ^ 2) / n
    let m3 := (∑ i ∈ Finset.range xs.length, (v i - μ) ^ 3) / n
    if m2 = 0 then some ⟨0, 0⟩ else some ⟨qsign m3, m3 ^ 2 / m2 ^ 3⟩

/-- A concrete six-observation series whose dates span exactly the fifty
water years 1970–2019: five observations opening water year 1970 and one
closing water year 2019. -/
def seriesSpan50 : List Obs :=
  [⟨⟨1969, 10, 1⟩, 3335000, some 0⟩, ⟨⟨1969, 10, 2⟩, 3335000, some 5⟩,
   ⟨⟨1969, 10, 3⟩, 3335000, some 5⟩, ⟨⟨1969, 10, 4⟩, 3335000, some 5⟩,
   ⟨⟨1969, 10, 5⟩, 3335000, some 5⟩, ⟨⟨2019, 9, 30⟩, 3335000, some 1⟩]

/-- A concrete one-observation series (a single day of data). -/
def seriesOneObs : List Obs := [⟨⟨1980, 1, 1⟩, 3335000, some 5⟩]

theorem Date.le_def (a b : Date) : a ≤ b ↔ a.key ≤ b.key := Iff.rfl

theorem Date.le_trans {a b c : Date} (h1 : a ≤ b) (h2 : b ≤ c) : a ≤ c :=
  Nat.le_trans h1 h2

theorem pathlen_eq (q : List ℚ) :
    pathlen q = ∑ i ∈ Finset.range (q.length - 1), |q.getD (i + 1) 0 - q.getD i 0| := by
  induction q with
  | nil => simp [pathlen]
  | cons a t ih =>
    cases t with
    | nil => simp [pathlen]
    | cons b t2 =>
      have hlen : (a :: b :: t2).length - 1 = t2.length + 1 := by simp
      rw [pathlen, ih, hlen, Finset.sum_range_succ']
      simp only [List.length_cons, Nat.add_sub_cancel, List.getD_cons_succ, List.getD_cons_zero]
      rw [add_comm]

/-- C7 counterexample: on an all-null window `CalcExceed3TimesMedian`
returns the plain integer count 0 (every comparison with the NaN median
is false), not an IEEE NaN as the claim asserts for all four MetricSet
functions. -/
theorem calcExceed_allNull_is_zero : CalcExceed3TimesMedian [(none : Option ℚ)] = 0 := by
  decide

/-- C7 (amended): on input with no non-null value the MetricSet
functions return without raising: `CalcTqmean` and `CalcRBindex` hit a
`0/0` division and give NaN, `Calc7Q` takes the minimum of an empty
rolling-mean list and gives NaN, and `CalcExceed3TimesMedian` gives the
integer 0. -/
theorem metricSet_degenerate (xs : List (Option ℚ)) (h : dropna xs = []) :
    CalcTqmean xs = FV.nan ∧ CalcRBindex xs = FV.nan ∧ Calc7Q xs = none ∧
      CalcExceed3TimesMedian xs = 0 := by
  refine ⟨?_, ?_, ?_, ?_⟩
  · simp [CalcTqmean, h, meanOpt, fdiv]
  · simp [CalcRBindex, h, pathlen, fdiv]
  · simp [Calc7Q, h, rolling7means]
  · simp [CalcExceed3TimesMedian, h, medianOpt]

/-- C7 witness: the amended statement at the concrete all-null input. -/
theorem metricSet_degenerate_witness :
    CalcTqmean [(none : Option ℚ)] = FV.nan ∧ CalcRBindex [(none : Option ℚ)] = FV.nan ∧
      Calc7Q [(none : Option ℚ)] = none ∧ CalcExceed3TimesMedian [(none : Option ℚ)] = 0 :=
  metricSet_degenerate [none] (by decide)

unseal Rat.add Rat.mul Rat.inv Rat.sub in
/-- C2 counterexample: on the single-observation window whose value is 0
the claim asserts a result of 0, but `CalcRBindex` computes `0/0`, which
is NaN, not 0. -/
theorem calcRBindex_single_zero_nan :
    CalcRBindex [some (0 : ℚ)] = FV.nan ∧ CalcRBindex [some (0 : ℚ)] ≠ FV.fin 0 := by
  decide

unseal Rat.add Rat.mul Rat.inv Rat.sub in
/-- C2 (amended): `CalcRBindex` divides the sum of absolute differences
of consecutive non-null values — the null-removed sequence traversed
contiguously — by the sum of the non-null values, whenever that sum is
nonzero (in particular a single-observation window with nonzero sum
gives 0, and `[10, 20]` gives `1/3`); but a single-observation (or
empty) window whose sum is 0 gives NaN, not 0. -/
theorem calcRBindex_spec (xs : List (Option ℚ)) :
    ((dropna xs).sum ≠ 0 → CalcRBindex xs =
      FV.fin ((∑ i ∈ Finset.range ((dropna xs).length - 1),
        |(dropna xs).getD (i + 1) 0 - (dropna xs).getD i 0|) / (dropna xs).sum)) ∧
    ((dropna xs).length ≤ 1 → (dropna xs).sum = 0 → CalcRBindex xs = FV.nan) ∧
    CalcRBindex [some 10, some 20] = FV.fin (1 / 3) := by
  refine ⟨?_, ?_, by decide⟩
  · intro h
    simp only [CalcRBindex, fdiv, if_neg h, pathlen_eq]
  · intro hlen hsum
    simp only [CalcRBindex, fdiv, if_pos hsum]
    rcases hq : dropna xs with _ | ⟨a, _ | ⟨b, t⟩⟩
    · simp [pathlen]
    · simp [pathlen]
    · rw [hq] at hlen
      simp at hlen

unseal Rat.add Rat.mul Rat.inv Rat.sub in
/-- C2 witness: the amended statement applied at the two-observation
window `[10, 20]`, discharging the nonzero-sum hypothesis there. -/
theorem calcRBindex_spec_witness :
    CalcRBindex [some 10, some 20] =
      FV.fin ((∑ i ∈ Finset.range ((dropna [some 10, some 20]).length - 1),
        |(dropna [some 10, some 20]).getD (i + 1) 0 - (dropna [some 10, some 20]).getD i 0|) /
          (dropna [some 10, some 20]).sum) :=
  (calcRBindex_spec [some 10, some 20]).1 (by decide)

unseal Rat.add Rat.mul Rat.inv Rat.sub in
/-- C5: on any input with at least one non-null value, `CalcTqmean`
returns the number of non-null values strictly greater than the
arithmetic mean of the non-null values, divided by the number of
non-null values, and that fraction lies in `[0, 1]` (in particular for
every non-empty sequence with no nulls). -/
theorem calcTqmean_spec (xs : List (Option ℚ)) (h : dropna xs ≠ []) :
    ∃ p : ℚ, CalcTqmean xs = FV.fin p ∧
      p = (((dropna xs).filter
          (fun v => decide ((dropna xs).sum / ((dropna xs).length : ℚ) < v))).length : ℚ) /
        ((dropna xs).length : ℚ) ∧
      0 ≤ p ∧ p ≤ 1 := by
  have hL : (dropna xs).length ≠ 0 := fun e => h (List.length_eq_zero.mp e)
  have hLq : ((dropna xs).length : ℚ) ≠ 0 := Nat.cast_ne_zero.mpr hL
  have hmean : meanOpt (dropna xs) = some ((dropna xs).sum / ((dropna xs).length : ℚ)) := by
    simp [meanOpt, hL]
  refine ⟨_, ?_, rfl, ?_, ?_⟩
  · simp only [CalcTqmean, hmean, fdiv, if_neg hLq]
  · exact div_nonneg (Nat.cast_nonneg _) (Nat.cast_nonneg _)
  · rw [div_le_one (by positivity)]
    exact_mod_cast List.length_filter_le _ _

unseal Rat.add Rat.mul Rat.inv Rat.sub in
/-- C5 witness: the theorem applied at the concrete window `[10, 20]`. -/
theorem calcTqmean_spec_witness :
    ∃ p : ℚ, CalcTqmean [some 10, some 20] = FV.fin p ∧
      p = (((dropna [some 10, some 20]).filter
          (fun v => decide ((dropna [some 10, some 20]).sum /
            ((dropna [some 10, some 20]).length : ℚ) < v))).length : ℚ) /
        ((dropna [some 10, some 20]).length : ℚ) ∧
      0 ≤ p ∧ p ≤ 1 :=
  calcTqmean_spec [some 10, some 20] (by decide)

unseal Rat.add Rat.mul Rat.inv Rat.sub in
/-- C3: `Calc7Q` returns NaN (`none`) when fewer than seven non-null
values exist; otherwise it returns the minimum, over the windows of 7
consecutive entries of the null-removed sequence, of the window mean
(partial boundary windows contribute no candidate); and on
`[1,2,3,4,5,6,7]` the result is the single window mean 4. -/
theorem calc7Q_spec (xs : List (Option ℚ)) :
    ((dropna xs).length < 7 → Calc7Q xs = none) ∧
    (7 ≤ (dropna xs).length → ∃ m, Calc7Q xs = some m ∧
      (∀ i, i + 7 ≤ (dropna xs).length → m ≤ (((dropna xs).drop i).take 7).sum / 7) ∧
      (∃ i, i + 7 ≤ (dropna xs).length ∧ m = (((dropna xs).drop i).take 7).sum / 7)) ∧
    Calc7Q [some 1, some 2, some 3, some 4, some 5, some 6, some 7] = some 4 := by
  refine ⟨?_, ?_, by decide⟩
  · intro hlt
    have h0 : (dropna xs).length + 1 - 7 = 0 := by omega
    simp [Calc7Q, rolling7means, h0]
  · intro hge
    have hpos : 0 < (dropna xs).length + 1 - 7 := by omega
    have hne : rolling7means (dropna xs) ≠ [] := by
      simp only [rolling7means, ne_eq, List.map_eq_nil_iff, List.range_eq_nil]
      omega
    obtain ⟨m, hm⟩ := Option.ne_none_iff_exists'.mp
      (fun e => hne (List.min?_eq_none_iff.mp e))
    haveI : Std.Antisymm (fun a b : ℚ => a ≤ b) := ⟨fun h1 h2 => le_antisymm h1 h2⟩
    have hchar := (List.min?_eq_some_iff (fun a : ℚ => le_refl a)
      (fun a b : ℚ => min_choice a b) (fun a b c : ℚ => le_min_iff)).mp hm
    refine ⟨m, hm, ?_, ?_⟩
    · intro i hi
      refine hchar.2 _ ?_
      simp only [rolling7means, List.mem_map, List.mem_range]
      exact ⟨i, by omega, rfl⟩
    · have := hchar.1
      simp only [rolling7means, List.mem_map, List.mem_range] at this
      obtain ⟨i, hi, he⟩ := this
      exact ⟨i, by omega, he.symm⟩

unseal Rat.add Rat.mul Rat.inv Rat.sub in
/-- C6: on any input with at least one non-null value,
`CalcExceed3TimesMedian` returns the number of non-null values strictly
greater than three times the median of the same set, the median being
the middle order statistic (average of the two middle ones for an even
count) of any ascending sorted arrangement of the non-null values; on
`[1,1,1,5]` the median is 1 and the count is 1. -/
theorem calcExceed3TimesMedian_spec (xs : List (Option ℚ)) (s : List ℚ)
    (hperm : s.Perm (dropna xs)) (hsort : s.Sorted (fun a b : ℚ => a ≤ b))
    (hne : dropna xs ≠ []) :
    CalcExceed3TimesMedian xs =
      ((dropna xs).filter (fun v => decide (3 *
        (if s.length % 2 = 1 then s.getD (s.length / 2) 0
         else (s.getD (s.length / 2 - 1) 0 + s.getD (s.length / 2) 0) / 2) < v))).length ∧
    CalcExceed3TimesMedian [some 1, some 1, some 1, some 5] = 1 := by
  refine ⟨?_, by decide⟩
  have hs : s = (dropna xs).insertionSort (fun a b => a ≤ b) := by
    apply List.eq_of_perm_of_sorted (r := fun a b : ℚ => a ≤ b)
    · exact hperm.trans (List.perm_insertionSort _ _).symm
    · exact hsort
    · exact List.sorted_insertionSort _ _
  have hlen : s.length = (dropna xs).length := hperm.length_eq
  have hL : ¬(dropna xs).length = 0 := fun e => hne (List.length_eq_zero.mp e)
  have hmed : medianOpt (dropna xs) = some
      (if s.length % 2 = 1 then s.getD (s.length / 2) 0
       else (s.getD (s.length / 2 - 1) 0 + s.getD (s.length / 2) 0) / 2) := by
    rw [medianOpt, if_neg hL, ← hs, ← hlen]
    split <;> rfl
  rw [CalcExceed3TimesMedian, hmed]

unseal Rat.add Rat.mul Rat.inv Rat.sub in
/-- C6 witness: the theorem applied at the concrete window `[1,1,1,5]`
with its sorted arrangement, discharging the hypotheses there. -/
theorem calcExceed3TimesMedian_spec_witness :
    CalcExceed3TimesMedian [some 1, some 1, some 1, some 5] =
      ((dropna [some 1, some 1, some 1, some 5]).filter (fun v => decide (3 *
        (if ([(1:ℚ), 1, 1, 5]).length % 2 = 1
         then ([(1:ℚ), 1, 1, 5]).getD (([(1:ℚ), 1, 1, 5]).length / 2) 0
         else (([(1:ℚ), 1, 1, 5]).getD (([(1:ℚ), 1, 1, 5]).length / 2 - 1) 0 +
           ([(1:ℚ), 1, 1, 5]).getD (([(1:ℚ), 1, 1, 5]).length / 2) 0) / 2) < v))).length ∧
    CalcExceed3TimesMedian [some 1, some 1, some 1, some 5] = 1 :=
  calcExceed3TimesMedian_spec [some 1, some 1, some 1, some 5] [1, 1, 1, 5]
    (by decide) (by decide) (by decide)

/-- C8: clipping to `[s1, e1]` and then clipping the result to a
sub-range `[s2, e2]` gives exactly the rows, and the recomputed
missing-value count, of clipping the original series to `[s2, e2]`
directly. -/
theorem clipData_subrange (df : List Obs) (s1 e1 s2 e2 : Date)
    (h1 : s1 ≤ s2) (h2 : e2 ≤ e1) :
    ClipData (ClipData df s1 e1).1 s2 e2 = ClipData df s2 e2 := by
  have hrows : ((df.filter (fun o => decide (s1 ≤ o.date) && decide (o.date ≤ e1))).filter
      (fun o => decide (s2 ≤ o.date) && decide (o.date ≤ e2))) =
      df.filter (fun o => decide (s2 ≤ o.date) && decide (o.date ≤ e2)) := by
    rw [List.filter_filter]
    apply List.filter_congr
    intro o _
    by_cases hs : s2 ≤ o.date
    · by_cases he : o.date ≤ e2
      · have hs1 : s1 ≤ o.date := Date.le_trans h1 hs
        have he1 : o.date ≤ e1 := Date.le_trans he h2
        simp [hs, he, hs1, he1]
      · simp [he]
    · simp [hs]
  simp only [ClipData]
  rw [hrows]

/-- C8 witness: the theorem at a concrete series and a concrete pair of
nested ranges. -/
theorem clipData_subrange_witness :
    ClipData (ClipData seriesOneObs ⟨1969, 10, 1⟩ ⟨2019, 9, 30⟩).1
        ⟨1979, 10, 1⟩ ⟨1980, 9, 30⟩ =
      ClipData seriesOneObs ⟨1979, 10, 1⟩ ⟨1980, 9, 30⟩ :=
  clipData_subrange seriesOneObs ⟨1969, 10, 1⟩ ⟨2019, 9, 30⟩ ⟨1979, 10, 1⟩ ⟨1980, 9, 30⟩
    (by decide) (by decide)

theorem colMean_single (x : Option ℚ) : colMean [x] = x := by
  cases x with
  | none => simp [colMean]
  | some v => simp [colMean]

/-- C9: `GetAnnualAverages` is the column-wise mean with nulls skipped
per column, so on a table consisting of exactly one row it returns that
row unchanged (a one-element column's mean is its element, and an
all-null column stays NaN). -/
theorem getAnnualAverages_single_row (r : List (Option ℚ)) :
    GetAnnualAverages r.length [r] = r := by
  apply List.ext_getElem?
  intro j
  simp only [GetAnnualAverages, List.map_cons, List.map_nil]
  rw [List.getElem?_map]
  by_cases hj : j < r.length
  · rw [List.getElem?_range hj]
    simp only [Option.map_some']
    rw [colMean_single, List.getD_eq_getElem _ _ hj, List.getElem?_eq_getElem hj]
  · have h1 : (List.range r.length)[j]? = none := by
      apply List.getElem?_eq_none
      simpa using Nat.le_of_not_lt hj
    have h2 : r[j]? = none := List.getElem?_eq_none (Nat.le_of_not_lt hj)
    rw [h1, h2, Option.map_none']

/-- C10: `ReadData` keeps exactly the parsed rows whose discharge is not
strictly negative — so rows with a null discharge (a NaN field or the
"Eqp" sentinel, both parsed to `none`) are retained — and its
missing-value count equals the number of raw records that parse to a
null discharge, nulls never being removed. -/
theorem readData_spec (raw : List RawObs) :
    (∀ o, o ∈ (ReadData raw).1 ↔ o ∈ raw.map parseObs ∧ ∀ q, o.discharge = some q → 0 ≤ q) ∧
    (ReadData raw).2 = raw.countP (fun r => r.v.toDischarge.isNone) ∧
    RawVal.eqp.toDischarge = none := by
  refine ⟨?_, ?_, rfl⟩
  · intro o
    simp only [ReadData, List.mem_filter]
    constructor
    · rintro ⟨hm, hp⟩
      refine ⟨hm, ?_⟩
      intro q hq
      rw [hq] at hp
      simp only [negDischarge, Bool.not_eq_true', decide_eq_false_iff_not] at hp
      exact le_of_not_lt hp
    · rintro ⟨hm, hq⟩
      refine ⟨hm, ?_⟩
      cases hd : o.discharge with
      | none => simp [negDischarge]
      | some v => simp [negDischarge, not_lt.mpr (hq v hd)]
  · simp only [ReadData]
    rw [List.countP_filter, List.countP_map]
    apply List.countP_congr
    intro r _
    cases hv : r.v with
    | val q => simp [Function.comp, parseObs, RawVal.toDischarge, hv]
    | eqp => simp [Function.comp, parseObs, RawVal.toDischarge, negDischarge, hv]
    | blank => simp [Function.comp, parseObs, RawVal.toDischarge, negDischarge, hv]

theorem list_sum_getD (l : List ℚ) :
    l.sum = ∑ i ∈ Finset.range l.length, l.getD i 0 := by
  induction l with
  | nil => simp
  | cons a t ih =>
    rw [List.sum_cons, List.length_cons, Finset.sum_range_succ']
    simp only [List.getD_cons_succ, List.getD_cons_zero]
    rw [ih, add_comm]

theorem map_sum_getD (l : List ℚ) (g : ℚ → ℚ) :
    (l.map g).sum = ∑ i ∈ Finset.range l.length, g (l.getD i 0) := by
  induction l with
  | nil => simp
  | cons a t ih =>
    rw [List.map_cons, List.sum_cons, List.length_cons, Finset.sum_range_succ']
    simp only [List.getD_cons_succ, List.getD_cons_zero]
    rw [ih, add_comm]

theorem getD_map_getD (xs : List (Option ℚ)) (i : Nat) :
    (xs.map (fun x => x.getD 0)).getD i 0 = (xs.getD i (some 0)).getD 0 := by
  induction xs generalizing i with
  | nil => simp
  | cons a t ih =>
    cases i with
    | zero => simp
    | succ n => simpa using ih n

theorem dropna_of_noneFree (xs : List (Option ℚ)) (h : ∀ x ∈ xs, x ≠ none) :
    dropna xs = xs.map (fun x => x.getD 0) := by
  induction xs with
  | nil => rfl
  | cons a t ih =>
    cases a with
    | none => exact absurd rfl (h none (List.mem_cons_self _ _))
    | some v =>
      simp only [dropna, List.filterMap_cons, id, List.map_cons, Option.getD_some]
      rw [← dropna, ih (fun x hx => h x (List.mem_cons_of_mem _ hx))]

theorem scipySkew_eq_biasedSkewAlt (xs : List (Option ℚ)) :
    scipySkew xs = biasedSkewAlt xs := by
  by_cases h : xs.length = 0 ∨ ∃ x ∈ xs, x = none
  · have hb : (xs.any (fun x => x.isNone) || xs.isEmpty) = true := by
      rcases h with h | ⟨x, hx, hxn⟩
      · simp [List.isEmpty_iff, List.length_eq_zero.mp h]
      · refine Bool.or_eq_true_iff.mpr (Or.inl ?_)
        exact List.any_eq_true.mpr ⟨x, hx, by simp [hxn]⟩
    rw [biasedSkewAlt, if_pos h]
    simp [scipySkew, hb]
  · push_neg at h
    obtain ⟨hlen0, hnone⟩ := h
    have hb : (xs.any (fun x => x.isNone) || xs.isEmpty) = false := by
      refine Bool.or_eq_false_iff.mpr ⟨?_, ?_⟩
      · refine List.any_eq_false.mpr ?_
        intro x hx
        simpa using hnone x hx
      · simpa [List.isEmpty_iff, ← List.length_eq_zero] using hlen0
    have hq : dropna xs = xs.map (fun x => x.getD 0) := dropna_of_noneFree xs hnone
    have hA : ((dropna xs).length : ℚ) = (xs.length : ℚ) := by
      rw [hq, List.length_map]
    have hB : (dropna xs).sum =
        ∑ i ∈ Finset.range xs.length, (xs.getD i (some 0)).getD 0 := by
      rw [hq, list_sum_getD, List.length_map]
      exact Finset.sum_congr rfl (fun i _ => getD_map_getD xs i)
    have hC : ∀ μ : ℚ, ((dropna xs).map (fun v => (v - μ) ^ 2)).sum =
        ∑ i ∈ Finset.range xs.length, ((xs.getD i (some 0)).getD 0 - μ) ^ 2 := by
      intro μ
      rw [hq, map_sum_getD, List.length_map]
      exact Finset.sum_congr rfl (fun i _ => by rw [getD_map_getD])
    have hD : ∀ μ : ℚ, ((dropna xs).map (fun v => (v - μ) ^ 3)).sum =
        ∑ i ∈ Finset.range xs.length, ((xs.getD i (some 0)).getD 0 - μ) ^ 3 := by
      intro μ
      rw [hq, map_sum_getD, List.length_map]
      exact Finset.sum_congr rfl (fun i _ => by rw [getD_map_getD])
    rw [scipySkew, biasedSkewAlt, if_neg (by simp [hb])]
    rw [if_neg (show ¬(xs.length = 0 ∨ ∃ x ∈ xs, x = none) from by
      push_neg
      exact ⟨hlen0, hnone⟩)]
    simp only [hA, hB, hC, hD]

/-- C4 (amended): the Skew entry of each water-year row of
`GetAnnualStatistics` is scipy's default skewness: NaN whenever the
window is empty or contains any null, and otherwise the BIASED (not
bias-corrected) Fisher–Pearson coefficient `g1 = m3 / m2^(3/2)` of the
window's values (0 when the variance is zero). -/
theorem annualRow_skew_biased (df : List Obs) (site WY : Nat) :
    (annualRowFor df site WY).skew = biasedSkewAlt (window df WY) := by
  simp only [annualRowFor]
  exact scipySkew_eq_biasedSkewAlt (window df WY)

unseal Rat.add Rat.mul Rat.inv Rat.sub in
/-- C4 counterexample: in the concrete series `seriesSpan50` the water
year 1970 window holds the five non-null values `[0, 5, 5, 5, 5]`; the
Skew entry of the first row of `GetAnnualStatistics` is the biased
coefficient `-√(9/4) = -3/2`, while the bias-corrected (adjusted)
coefficient of those five values is `-√5`; the two differ. -/
theorem annualStatistics_skew_not_adjusted :
    (GetAnnualStatistics seriesSpan50).bind (fun t => (t.get? 0).map (fun p => p.2.skew)) =
      some (some ⟨-1, 9 / 4⟩) ∧
    adjustedSkew (dropna (window seriesSpan50 1970)) = some ⟨-1, 5⟩ ∧
    (⟨-1, 9 / 4⟩ : SkewRep) ≠ ⟨-1, 5⟩ := by
  refine ⟨by decide, by decide, by decide⟩

/-- C1 counterexample: `seriesOneObs` has one observation, yet
`GetAnnualStatistics` produces no 50-row table on it: the series spans a
single water year, so the index reassignment on line 139 fails with a
pandas length-mismatch error (modelled as `none`). -/
theorem getAnnualStatistics_one_obs_no_table :
    seriesOneObs ≠ [] ∧ GetAnnualStatistics seriesOneObs = none := by
  refine ⟨by decide, by decide⟩

/-- C1 (amended): for a non-empty input whose 'AS-OCT' resample index
has exactly 50 entries (the series' first and last dates lie 49 water
years apart, as after the driver's clip to 1969-10-01..2019-09-30),
`GetAnnualStatistics` returns a table of exactly 50 rows in which row
`k` holds the statistics of water year `1970+k`, computed over exactly
the observations dated inside the inclusive window
`[1969+k-10-01, 1970+k-09-30]`; for any other span the line-139 index
reassignment aborts instead of returning a table. -/
theorem getAnnualStatistics_rows (df : List Obs) (o0 : Obs)
    (h0 : df.head? = some o0) (hspan : (resampleASOct df).length = 50) :
    ∃ t, GetAnnualStatistics df = some t ∧ t.length = 50 ∧
      ∀ k, k < 50 → (t.map Prod.snd)[k]? =
        some (annualRowFor df o0.site_no (1970 + k)) := by
  cases df with
  | nil => simp at h0
  | cons a tl =>
    have ha : a = o0 := by simpa using h0
    subst ha
    have hdef : GetAnnualStatistics (a :: tl) =
        some ((resampleASOct (a :: tl)).zip
          ((List.range 50).map (fun k => annualRowFor (a :: tl) a.site_no (1970 + k)))) := by
      rw [GetAnnualStatistics]
      simp only [List.head?_cons]
      rw [if_pos hspan]
    refine ⟨_, hdef, ?_, ?_⟩
    · simp [List.length_zip, hspan]
    · intro k hk
      rw [List.map_snd_zip]
      · rw [List.getElem?_map, List.getElem?_range hk]
        rfl
      · rw [hspan, List.length_map, List.length_range]

/-- C1 witness: the amended statement at the concrete series
`seriesSpan50`, whose resample index has exactly 50 entries. -/
theorem getAnnualStatistics_rows_witness :
    ∃ t, GetAnnualStatistics seriesSpan50 = some t ∧ t.length = 50 ∧
      ∀ k, k < 50 → (t.map Prod.snd)[k]? =
        some (annualRowFor seriesSpan50
          (Obs.mk ⟨1969, 10, 1⟩ 3335000 (some 0)).site_no (1970 + k)) :=
  getAnnualStatistics_rows seriesSpan50 ⟨⟨1969, 10, 1⟩, 3335000, some 0⟩
    (by rfl) (by decide)

end Program10
